import Mathlib

/-!
# LondonMapScreen (src/App.js): a shallow embedding

The component keeps its data in React state cells and changes them from event
handlers, from effect bodies and from two asynchronous `fetchData` functions.
Here each state cell is a field of `State`, each handler and effect body is a
function on `State`, and the replies of the remote services are explicit
inputs.

JavaScript numbers are modelled after `ToNumber` as `Option ℚ`: `none` is
`NaN`, which is what `undefined` and non-numeric text become when they are
compared or passed to `Number`.  Every relational operator is false as soon
as one operand is `NaN`.  `turf.distance` is a parameter of the development.

A run of the poller's `fetchData` is a function of the replies it receives.
The single arrival is also a transition of its own, so that the states in the
middle of a cycle are among the reachable ones.  Every run of the polling
effect has its own `markers` array; the clean-up of a run only clears its
timer, so a cycle of a superseded run that is still in flight keeps pushing
onto the array of its run and publishing it.  `State.retired` holds these
arrays.
-/

namespace LondonMap

/-! ## Numbers -/

/-- A JavaScript operand after ToNumber; `none` stands for NaN (and so for undefined). -/
abbrev JSNum := Option ℚ

/-- The operator `a < b`. -/
def jsLt : JSNum → JSNum → Bool
  | some x, some y => decide (x < y)
  | _, _ => false

/-- The operator `a <= b`. -/
def jsLe : JSNum → JSNum → Bool
  | some x, some y => decide (x ≤ y)
  | _, _ => false

/-- The operator `a >= b`. -/
def jsGe : JSNum → JSNum → Bool
  | some x, some y => decide (y ≤ x)
  | _, _ => false

/-! ## Constants (lines 20-23) -/

def minLatitude : ℚ := 51.2867602
def maxLatitude : ℚ := 51.6918741
def minLongitude : ℚ := -0.510375
def maxLongitude : ℚ := 0.3340155

/-! ## Proximity classifier (lines 127-135) -/

/-- Source `getMarkerColor`: the pin colour for a distance in kilometres. -/
def getMarkerColor (distance : JSNum) : String :=
  if jsLt distance (some 1) then
    "green"
  else if jsGe distance (some 1) && jsLe distance (some 3) then
    "orange"
  else
    "red"

/-! ## Geofence test (lines 67-72, inline in the poller) -/

/-- The condition of the `if` that guards `markers.push` in the poller. -/
def withinLondon (latitude longitude : JSNum) : Bool :=
  jsGe latitude (some minLatitude) &&
  jsLe latitude (some maxLatitude) &&
  jsGe longitude (some minLongitude) &&
  jsLe longitude (some maxLongitude)

/-- Source `Number(x)`; the operand is already in ToNumber form. -/
def Number (value : JSNum) : JSNum := value

/-! ## Data model -/

/-- An entry of the line catalog returned by `Line/Mode/bus`. -/
structure BusLine where
  id : String
  name : String
deriving DecidableEq, Repr

/-- A coordinate pair: a marker (lines 73-76), the fixed point (lines 10-13) or a tap. -/
structure LatLng where
  latitude : JSNum
  longitude : JSNum
deriving DecidableEq, Repr

/-- A candidate of the geocoder, with its `lat` and `lon` fields in ToNumber form: a number or
numeric text is that number, a field that is missing (undefined) or is other text is `none`,
and JSON null or empty text is the number 0. -/
structure Place where
  lat : JSNum
  lon : JSNum
deriving DecidableEq, Repr

/-- The outcome of the geocoding request made for one arrival (line 59): a response whose
`data[0]` is `first`, or a thrown error that does or does not carry a `response`. -/
inductive GeocodeReply where
  | data (first : Option Place)
  | error (response : Bool)
deriving DecidableEq, Repr

/-- The outcome of the arrivals request of one line (line 51).  Each arrival is represented by
the outcome of the geocoding request that its station name will get. -/
inductive ArrivalsReply where
  | data (arrivals : List GeocodeReply)
  | error (response : Bool)
deriving DecidableEq, Repr

/-- The outcome of the catalog request (line 28). -/
inductive CatalogReply where
  | data (busLinesArr : List BusLine)
  | error (response : Bool)
deriving DecidableEq, Repr

/-- The state cells of the component (lines 9-18), the closure of the live run of the polling
effect (`markers`, line 47, and the `selectedBusLines` it captured), the `markers` arrays of
the superseded runs in the order of their creation, a counter of the calls of the poller's
`fetchData`, and whether an effect body has thrown. -/
structure State where
  busMarkers : List LatLng
  fixedPoint : LatLng
  errorMessage : Option String
  selectedBusLines : List String
  busLines : List BusLine
  showBusline : Bool
  distances : List JSNum
  markers : List LatLng
  pollLines : List String
  retired : List (List LatLng)
  fetchCalls : Nat
  threw : Bool
deriving DecidableEq, Repr

/-- How the promise of an async function settles, with the state it leaves behind. -/
inductive Settled where
  | fulfilled (st : State)
  | rejected (st : State) (response : Bool)
deriving DecidableEq, Repr

/-- The state left behind by a settled call. -/
def Settled.state : Settled → State
  | .fulfilled st => st
  | .rejected st _ => st

/-- Whether the promise was rejected, that is, an exception left the function. -/
def Settled.isRejected : Settled → Bool
  | .fulfilled _ => false
  | .rejected _ _ => true

/-- The values given to `useState` (lines 9-18), before any effect has run. -/
def initial : State where
  busMarkers := []
  fixedPoint := { latitude := some 51.5074, longitude := some (-0.1278) }
  errorMessage := none
  selectedBusLines := []
  busLines := []
  showBusline := false
  distances := []
  markers := []
  pollLines := []
  retired := []
  fetchCalls := 0
  threw := false

/-! ## Line catalog loader (lines 25-45) -/

/-- Source `fetchData` of the first effect. -/
def CatalogLoader.fetchData (reply : CatalogReply) (st : State) : Settled :=
  match reply with
  | .data busLinesArr => .fulfilled { st with busLines := busLinesArr }
  | .error response =>
    if response then
      .fulfilled { st with
        errorMessage := some "Network error. Please check your internet connection." }
    else
      .fulfilled { st with errorMessage := some "An error occurred while fetching data." }

/-! ## Arrival poller (lines 46-102) -/

namespace ArrivalPoller

/-- The body of `for (const bus of arrivals)` (lines 56-87) for one arrival. -/
def forBus (st : State) : GeocodeReply → State
  | .data first =>
    let latitude : JSNum := first.bind fun place => place.lat
    let longitude : JSNum := first.bind fun place => place.lon
    if withinLondon latitude longitude then
      let markers := st.markers ++ [{ latitude := Number latitude, longitude := Number longitude }]
      { st with markers := markers, busMarkers := markers }
    else
      st
  | .error response =>
    if response then
      { st with errorMessage := some "Api Limit is 2 requests/second, It may not give data." }
    else
      { st with errorMessage := some "An error occurred while fetching data." }

/-- The loop `for (const line of selectedBusLines)` (lines 50-89); `net` gives the reply of the
arrivals request of each line during this cycle. -/
def forLines (net : String → ArrivalsReply) : List String → State → Settled
  | [], st => .fulfilled st
  | line :: rest, st =>
    match net line with
    | .error response => .rejected st response
    | .data arrivals => forLines net rest (arrivals.foldl forBus st)

/-- Source `fetchData` of the second effect: one polling cycle of the live effect instance. -/
def fetchData (net : String → ArrivalsReply) (st : State) : Settled :=
  forLines net st.pollLines st

/-- A run of `fetchData` started by the interval timer (line 96). -/
def tick (net : String → ArrivalsReply) (st : State) : Settled :=
  fetchData net { st with fetchCalls := st.fetchCalls + 1 }

/-- The body of `for (const bus of arrivals)` for one arrival of a cycle, still in flight, of
the superseded run number `run`: the same code, with `markers` bound to the array of that
run. -/
def forRetiredBus (st : State) (run : Nat) (reply : GeocodeReply) : State :=
  match st.retired[run]? with
  | none => st
  | some array =>
    let next := forBus { st with markers := array } reply
    { next with markers := st.markers, retired := st.retired.set run next.markers }

end ArrivalPoller

/-! ## Effects and their dependency lists -/

/-- The values that appear in a dependency list. -/
inductive Cell where
  | busMarkers | fixedPoint | selectedBusLines | minLongitude
deriving DecidableEq, Repr

/-- The dependency list of the polling effect (line 102). -/
def pollerDeps : List Cell := [.minLongitude, .selectedBusLines, .fixedPoint]

/-- The dependency list of the distance effect (line 123). -/
def distanceDeps : List Cell := [.busMarkers, .fixedPoint]

/-- The synchronous part of the body of the polling effect (lines 47-96): a fresh `markers`
array, a closure over the current selection, and the immediate call `fetchData()` of line 92. -/
def pollerBody (st : State) : State :=
  { st with markers := [], pollLines := st.selectedBusLines, fetchCalls := st.fetchCalls + 1 }

/-- A re-run of the polling effect: the clean-up of the previous run (lines 99-101) clears its
timer and leaves its array to the cycles of that run that are still in flight; then the body
runs. -/
def pollerEffect (st : State) : State :=
  pollerBody { st with retired := st.retired ++ [st.markers] }

/-- Whether `turf.point([longitude, latitude])` throws: it does unless both are numbers. -/
def turfPointThrows (point : LatLng) : Bool :=
  point.longitude.isNone || point.latitude.isNone

/-- The body of the distance effect (lines 112-122); `turfDistance marker fixedPoint` is
`turf.distance` in kilometres between two points that `turf.point` accepts.  When `turf.point`
throws for some marker or, with at least one marker, for the fixed point, `setDistances` is
not reached. -/
def distanceEffect (turfDistance : LatLng → LatLng → JSNum) (st : State) : State :=
  if st.busMarkers.any fun marker => turfPointThrows marker || turfPointThrows st.fixedPoint then
    { st with threw := true }
  else
    { st with distances := st.busMarkers.map fun marker => turfDistance marker st.fixedPoint }

/-- The effects that run after a render in which `changed` received a new value, in the order
in which the component declares them. -/
def runEffects (turfDistance : LatLng → LatLng → JSNum) (changed : Cell) (st : State) : State :=
  let st := if changed ∈ pollerDeps then pollerEffect st else st
  if changed ∈ distanceDeps then distanceEffect turfDistance st else st

/-- The state after the first render: every effect has run once. -/
def mounted (turfDistance : LatLng → LatLng → JSNum) : State :=
  distanceEffect turfDistance (pollerBody initial)

/-! ## Handlers -/

/-- Source `toggleBusLine` (lines 104-110), followed by the effects of the new selection. -/
def toggleBusLine (turfDistance : LatLng → LatLng → JSNum) (line : BusLine) (st : State) :
    State :=
  if st.selectedBusLines.contains line.name then
    runEffects turfDistance .selectedBusLines
      { st with selectedBusLines := st.selectedBusLines.filter fun id => id != line.name }
  else
    runEffects turfDistance .selectedBusLines
      { st with selectedBusLines := st.selectedBusLines ++ [line.name] }

/-- Source `handleMapPress` (lines 138-141), followed by the effects of the new fixed point. -/
def handleMapPress (turfDistance : LatLng → LatLng → JSNum) (coordinate : LatLng) (st : State) :
    State :=
  runEffects turfDistance .fixedPoint
    { st with
      fixedPoint := { latitude := coordinate.latitude, longitude := coordinate.longitude } }

/-- The `onPress` of the button (line 161). -/
def pressButton (st : State) : State :=
  { st with showBusline := !st.showBusline }

/-- The `isChecked` property that `renderItem` gives to the checkbox of `item` (line 150). -/
def renderItem_isChecked (st : State) (item : BusLine) : Bool :=
  st.selectedBusLines.contains item.id

/-- The `pinColor` of the marker at `index` (line 193). -/
def pinColor (st : State) (index : Nat) : String :=
  getMarkerColor (st.distances.get? index).join

/-- Pressing the checkboxes of `lines` one after the other. -/
def toggleAll (turfDistance : LatLng → LatLng → JSNum) (lines : List BusLine) (st : State) :
    State :=
  lines.foldl (fun acc line => toggleBusLine turfDistance line acc) st

/-! ## Reachable states -/

/-- One transition of the component.  The coordinate of a map press is a pair of numbers. -/
inductive Step (turfDistance : LatLng → LatLng → JSNum) : State → State → Prop where
  | catalog (reply : CatalogReply) (st : State) :
      Step turfDistance st (CatalogLoader.fetchData reply st).state
  | bus (reply : GeocodeReply) (st : State) :
      Step turfDistance st (ArrivalPoller.forBus st reply)
  | retiredBus (run : Nat) (reply : GeocodeReply) (st : State) :
      Step turfDistance st (ArrivalPoller.forRetiredBus st run reply)
  | cycle (net : String → ArrivalsReply) (st : State) :
      Step turfDistance st (ArrivalPoller.fetchData net st).state
  | tick (net : String → ArrivalsReply) (st : State) :
      Step turfDistance st (ArrivalPoller.tick net st).state
  | distances (st : State) :
      Step turfDistance st (distanceEffect turfDistance st)
  | toggle (line : BusLine) (st : State) :
      Step turfDistance st (toggleBusLine turfDistance line st)
  | press (latitude longitude : ℚ) (st : State) :
      Step turfDistance st
        (handleMapPress turfDistance { latitude := some latitude, longitude := some longitude }
          st)
  | button (st : State) :
      Step turfDistance st (pressButton st)

/-- The states the component can be in. -/
inductive Reachable (turfDistance : LatLng → LatLng → JSNum) : State → Prop where
  | mount : Reachable turfDistance (mounted turfDistance)
  | step {st st' : State} :
      Reachable turfDistance st → Step turfDistance st st' → Reachable turfDistance st'

/-- A marker lies in the bounding box, with both coordinates numbers. -/
def InBox (marker : LatLng) : Prop :=
  ∃ lat lon : ℚ, marker = { latitude := some lat, longitude := some lon } ∧
    ((51.2867602 : ℚ) ≤ lat ∧ lat ≤ 51.6918741) ∧ ((-0.510375 : ℚ) ≤ lon ∧ lon ≤ 0.3340155)

/-- Every published marker and every marker of the array of every run of the polling effect
lies in the box. -/
def BoxInv (st : State) : Prop :=
  (∀ m ∈ st.busMarkers, InBox m) ∧ (∀ m ∈ st.markers, InBox m) ∧
    ∀ array ∈ st.retired, ∀ m ∈ array, InBox m

/-! ## Scenarios -/

/-- A catalog entry whose `id` and `name` differ. -/
def nightLine : BusLine := { id := "n1", name := "N1" }

/-- A catalog entry for line 15. -/
def line15 : BusLine := { id := "15", name := "15" }

/-- The geocoder places Trafalgar Square at (51.5080, -0.1281). -/
def trafalgar : GeocodeReply := .data (some { lat := some 51.5080, lon := some (-0.1281) })

/-- The geocoder places Aldwych at (51.5128, -0.1172). -/
def aldwych : GeocodeReply := .data (some { lat := some 51.5128, lon := some (-0.1172) })

/-- A cycle in which line 15 has one arrival, at Trafalgar Square. -/
def netTrafalgar : String → ArrivalsReply :=
  fun line => if line = "15" then .data [trafalgar] else .data []

/-- A cycle in which line 15 has one arrival, at Aldwych. -/
def netAldwych : String → ArrivalsReply :=
  fun line => if line = "15" then .data [aldwych] else .data []

/-- A cycle in which the arrivals request of line 1 fails with a response-bearing error and
line 2 has one arrival, at Trafalgar Square. -/
def netLine1Down : String → ArrivalsReply :=
  fun line => if line = "1" then .error true else .data [trafalgar]

/-- A cycle in which the first geocoding request of line 15 is refused and the second one
places the arrival at Trafalgar Square. -/
def netThrottled : String → ArrivalsReply :=
  fun line => if line = "15" then .data [.error true, trafalgar] else .data []

/-- A cycle in which the geocoding request of the one arrival of line 1 is refused, the
arrivals request of line 2 fails, and line 3 has one arrival, at Trafalgar Square. -/
def netLine2Down : String → ArrivalsReply :=
  fun line =>
    if line = "1" then .data [.error true]
    else if line = "2" then .error false
    else .data [trafalgar]

/-- The same cycle with an arrivals request of line 2 that succeeds, without arrivals. -/
def netLine2Idle : String → ArrivalsReply :=
  fun line =>
    if line = "1" then .data [.error true]
    else if line = "2" then .data []
    else .data [trafalgar]

/-- Lines 1, 2 and 3 of the catalog. -/
def lines123 : List BusLine :=
  [{ id := "1", name := "1" }, { id := "2", name := "2" }, { id := "3", name := "3" }]

/-- A stand-in for `turf.distance` in closed examples. -/
def zeroDistance : LatLng → LatLng → JSNum := fun _ _ => some 0

/-- Line 15 is selected and the immediate cycle has published the Trafalgar Square marker. -/
def withTrafalgar : State :=
  (ArrivalPoller.fetchData netTrafalgar
    (toggleBusLine zeroDistance line15 (mounted zeroDistance))).state

/-- Line 15 is selected, its cycle has published the Trafalgar Square marker and is still in
flight; the map is pressed at (51.6, -0.05); then the Aldwych reply of that cycle arrives.  The
run that line 15 started is run number 1, after the run of the first render. -/
def afterStaleReply : State :=
  ArrivalPoller.forRetiredBus
    (handleMapPress zeroDistance { latitude := some 51.6, longitude := some (-0.05) }
      (ArrivalPoller.forBus (toggleBusLine zeroDistance line15 (mounted zeroDistance))
        trafalgar))
    1 aldwych

/-! ## Theorems -/

theorem getMarkerColor_num (d : ℚ) :
    getMarkerColor (some d) =
      if d < 1 then "green" else if 1 ≤ d ∧ d ≤ 3 then "orange" else "red" := by
  simp [getMarkerColor, jsLt, jsGe, jsLe]

/-- C1: for every numeric distance d, getMarkerColor gives green exactly when d < 1, orange
exactly when 1 ≤ d ≤ 3 and red exactly when d > 3; the boundaries 1 and 3 give orange. -/
theorem getMarkerColor_tiers (d : ℚ) :
    (getMarkerColor (some d) = "green" ↔ d < 1) ∧
    (getMarkerColor (some d) = "orange" ↔ 1 ≤ d ∧ d ≤ 3) ∧
    (getMarkerColor (some d) = "red" ↔ 3 < d) ∧
    getMarkerColor (some 1) = "orange" ∧ getMarkerColor (some 3) = "orange" := by
  refine ⟨?_, ?_, ?_, ?_, ?_⟩
  · rw [getMarkerColor_num]
    by_cases h1 : d < 1
    · simp [h1]
    · by_cases h2 : 1 ≤ d ∧ d ≤ 3 <;> simp [h1, h2]
  · rw [getMarkerColor_num]
    by_cases h1 : d < 1
    · simp only [h1, if_true]
      constructor
      · intro h; simp at h
      · intro h; linarith [h.1]
    · by_cases h2 : 1 ≤ d ∧ d ≤ 3
      · simp [h1, h2]
      · simp [h1, h2]
  · rw [getMarkerColor_num]
    by_cases h1 : d < 1
    · simp only [h1, if_true]
      constructor
      · intro h; simp at h
      · intro h; linarith
    · by_cases h2 : 1 ≤ d ∧ d ≤ 3
      · simp only [h1, h2, if_false, if_true]
        constructor
        · intro h; simp at h
        · intro h; linarith [h2.2]
      · simp only [h1, h2, if_false, true_iff]
        by_contra h3
        exact h2 ⟨le_of_not_lt h1, le_of_not_lt h3⟩
  · rw [getMarkerColor_num]; norm_num
  · rw [getMarkerColor_num]; norm_num

theorem withinLondon_num (lat lon : ℚ) :
    withinLondon (some lat) (some lon) = true ↔
      (minLatitude ≤ lat ∧ lat ≤ maxLatitude) ∧ (minLongitude ≤ lon ∧ lon ≤ maxLongitude) := by
  simp [withinLondon, jsGe, jsLe, and_assoc]

/-- C2: the bounding-box test accepts (lat, lon) exactly when 51.2867602 ≤ lat ≤ 51.6918741 and
-0.510375 ≤ lon ≤ 0.3340155, bounds included, and rejects when either coordinate is absent; a
reply without a first candidate changes nothing. -/
theorem withinLondon_iff :
    (∀ lat lon : ℚ, withinLondon (some lat) (some lon) = true ↔
      ((51.2867602 : ℚ) ≤ lat ∧ lat ≤ 51.6918741) ∧ ((-0.510375 : ℚ) ≤ lon ∧ lon ≤ 0.3340155)) ∧
    (∀ c : JSNum, withinLondon none c = false ∧ withinLondon c none = false) ∧
    withinLondon (some 51.2867602) (some (-0.510375)) = true ∧
    withinLondon (some 51.6918741) (some 0.3340155) = true ∧
    (∀ st : State, ArrivalPoller.forBus st (.data none) = st) := by
  refine ⟨fun lat lon => withinLondon_num lat lon, ?_, ?_, ?_, ?_⟩
  rotate_right
  · intro st; simp [ArrivalPoller.forBus, withinLondon, jsGe]
  · intro c
    constructor
    · simp [withinLondon, jsGe]
    · cases c <;> simp [withinLondon, jsGe, jsLe]
  · rw [withinLondon_num]; norm_num [minLatitude, maxLatitude, minLongitude, maxLongitude]
  · rw [withinLondon_num]; norm_num [minLatitude, maxLatitude, minLongitude, maxLongitude]

/-! ### Selection -/

section Selection

variable (turfDistance : LatLng → LatLng → JSNum)

/-- The selection in terms of lists: what `toggleBusLine` passes to `setSelectedBusLines`. -/
theorem toggleBusLine_selectedBusLines (line : BusLine) (st : State) :
    (toggleBusLine turfDistance line st).selectedBusLines =
      if line.name ∈ st.selectedBusLines then
        st.selectedBusLines.filter fun id => id != line.name
      else
        st.selectedBusLines ++ [line.name] := by
  unfold toggleBusLine
  by_cases h : line.name ∈ st.selectedBusLines
  · simp [h, runEffects, pollerDeps, distanceDeps, pollerEffect, pollerBody]
  · simp [h, runEffects, pollerDeps, distanceDeps, pollerEffect, pollerBody]

theorem mem_toggleBusLine (line : BusLine) (st : State) (x : String) :
    x ∈ (toggleBusLine turfDistance line st).selectedBusLines ↔
      if x = line.name then line.name ∉ st.selectedBusLines else x ∈ st.selectedBusLines := by
  rw [toggleBusLine_selectedBusLines]
  by_cases h : line.name ∈ st.selectedBusLines
  · by_cases hx : x = line.name
    · subst hx; simp [h]
    · simp [h, hx]
  · by_cases hx : x = line.name
    · subst hx; simp [h]
    · simp [h, hx]

/-- C3: toggling the same line twice in succession gives a selection with the same members as
the original one. -/
theorem toggleBusLine_twice (line : BusLine) (st : State) (x : String) :
    x ∈ (toggleBusLine turfDistance line
          (toggleBusLine turfDistance line st)).selectedBusLines ↔
      x ∈ st.selectedBusLines := by
  simp only [mem_toggleBusLine]
  by_cases hx : x = line.name
  · subst hx; simp
  · simp [hx]

/-- When the `id` and the `name` of a line coincide, a toggle adds the identifier if it is
absent, removes it if it is present, and changes the membership of nothing else. -/
theorem toggleBusLine_of_id_eq_name (line : BusLine) (h : line.id = line.name) (st : State) :
    (line.id ∈ (toggleBusLine turfDistance line st).selectedBusLines ↔
      line.id ∉ st.selectedBusLines) ∧
    ∀ x : String, x ≠ line.id →
      (x ∈ (toggleBusLine turfDistance line st).selectedBusLines ↔ x ∈ st.selectedBusLines) := by
  constructor
  · rw [mem_toggleBusLine]; simp [h]
  · intro x hx
    rw [mem_toggleBusLine]
    have hx' : x ≠ line.name := h ▸ hx
    simp [hx']

/-- The checkbox of `item` after a toggle of `line`: it flips exactly when the name of `line` is
the id of `item`. -/
theorem renderItem_isChecked_toggleBusLine (line item : BusLine) (st : State) :
    renderItem_isChecked (toggleBusLine turfDistance line st) item =
      if item.id = line.name then !renderItem_isChecked st item
      else renderItem_isChecked st item := by
  have h := mem_toggleBusLine turfDistance line st item.id
  unfold renderItem_isChecked
  by_cases hx : item.id = line.name
  · simp only [hx, if_true] at h ⊢
    by_cases hm : line.name ∈ st.selectedBusLines
    · have : line.name ∉ (toggleBusLine turfDistance line st).selectedBusLines := by
        intro hc; exact (h.mp hc) hm
      simp [hm, this]
    · have : line.name ∈ (toggleBusLine turfDistance line st).selectedBusLines := h.mpr hm
      simp [hm, this]
  · simp only [hx, if_false] at h ⊢
    by_cases hm : item.id ∈ st.selectedBusLines
    · simp [hm, h.mpr hm]
    · have : item.id ∉ (toggleBusLine turfDistance line st).selectedBusLines := by
        intro hc; exact hm (h.mp hc)
      simp [hm, this]

/-- The checkbox of `item` after a sequence of toggles: it has flipped once for every toggled
line whose name is the id of `item`. -/
theorem renderItem_isChecked_toggleAll (lines : List BusLine) (item : BusLine) (st : State) :
    renderItem_isChecked (toggleAll turfDistance lines st) item =
      xor (renderItem_isChecked st item)
        (decide ((lines.filter fun line => line.name == item.id).length % 2 = 1)) := by
  induction lines generalizing st with
  | nil => simp [toggleAll]
  | cons line rest ih =>
    have hstep : toggleAll turfDistance (line :: rest) st =
        toggleAll turfDistance rest (toggleBusLine turfDistance line st) := rfl
    rw [hstep, ih, renderItem_isChecked_toggleBusLine]
    by_cases hx : item.id = line.name
    · have hb : (line.name == item.id) = true := by simp [hx]
      simp only [hx, if_true, List.filter_cons, hb, List.length_cons]
      rcases Nat.mod_two_eq_zero_or_one
          (List.filter (fun l => l.name == line.name) rest).length with h0 | h0
      · have h1 : ((List.filter (fun l => l.name == line.name) rest).length + 1) % 2 = 1 := by
          omega
        cases renderItem_isChecked st item <;> simp [h0, h1]
      · have h1 : ((List.filter (fun l => l.name == line.name) rest).length + 1) % 2 = 0 := by
          omega
        cases renderItem_isChecked st item <;> simp [h0, h1]
    · have hb : (line.name == item.id) = false := by
        simp only [beq_eq_false_iff_ne, ne_eq]
        exact fun hc => hx hc.symm
      simp [hx, List.filter_cons, hb]

end Selection

/-! ### The identifier of a line and its name -/

/-- C4, evaluated: with nothing selected, a toggle of the line with id n1 and name N1 leaves
the identifier n1 absent and makes N1 a member; with n1 selected, the toggle keeps n1. -/
theorem toggleBusLine_stores_name (turfDistance : LatLng → LatLng → JSNum) :
    (toggleBusLine turfDistance nightLine (mounted turfDistance)).selectedBusLines = ["N1"] ∧
    nightLine.id ∉ (toggleBusLine turfDistance nightLine (mounted turfDistance)).selectedBusLines ∧
    (toggleBusLine turfDistance nightLine
      { mounted turfDistance with selectedBusLines := ["n1"] }).selectedBusLines
        = ["n1", "N1"] := by
  refine ⟨?_, ?_, ?_⟩
  · rw [toggleBusLine_selectedBusLines]; simp [mounted, distanceEffect, pollerEffect, pollerBody, initial, nightLine]
  · rw [toggleBusLine_selectedBusLines]; simp [mounted, distanceEffect, pollerEffect, pollerBody, initial, nightLine]
  · rw [toggleBusLine_selectedBusLines]; simp [nightLine]

/-- C9, evaluated: after one press of the checkbox of the line with id n1 and name N1 the
selection holds N1, and the checkbox of that line is still drawn unchecked. -/
theorem renderItem_isChecked_after_toggle (turfDistance : LatLng → LatLng → JSNum) :
    (toggleAll turfDistance [nightLine] (mounted turfDistance)).selectedBusLines = ["N1"] ∧
    renderItem_isChecked (toggleAll turfDistance [nightLine] (mounted turfDistance)) nightLine
      = false := by
  have h : (toggleAll turfDistance [nightLine] (mounted turfDistance)).selectedBusLines
      = ["N1"] := by
    show (toggleBusLine turfDistance nightLine (mounted turfDistance)).selectedBusLines = ["N1"]
    rw [toggleBusLine_selectedBusLines]
    simp [mounted, distanceEffect, pollerEffect, pollerBody, initial, nightLine]
  refine ⟨h, ?_⟩
  unfold renderItem_isChecked
  rw [h]
  simp [nightLine]

/-! ### Polling cycles -/

theorem ArrivalPoller.forLines_cons_data (net : String → ArrivalsReply) (line : String)
    (rest : List String)
    (arrivals : List GeocodeReply) (st : State) (h : net line = .data arrivals) :
    ArrivalPoller.forLines net (line :: rest) st = ArrivalPoller.forLines net rest (arrivals.foldl ArrivalPoller.forBus st) := by
  conv_lhs => unfold forLines
  simp only [h]

theorem ArrivalPoller.forLines_cons_error (net : String → ArrivalsReply) (line : String)
    (rest : List String)
    (response : Bool) (st : State) (h : net line = .error response) :
    ArrivalPoller.forLines net (line :: rest) st = .rejected st response := by
  conv_lhs => unfold forLines
  simp only [h]

theorem withinLondon_trafalgar : withinLondon (some 51.5080) (some (-0.1281)) = true := by
  rw [withinLondon_num]; norm_num [minLatitude, maxLatitude, minLongitude, maxLongitude]

theorem withinLondon_aldwych : withinLondon (some 51.5128) (some (-0.1172)) = true := by
  rw [withinLondon_num]; norm_num [minLatitude, maxLatitude, minLongitude, maxLongitude]

/-- With line 15 selected, the immediate cycle publishes the Trafalgar Square marker. -/
theorem fetchData_netTrafalgar (turfDistance : LatLng → LatLng → JSNum) :
    (ArrivalPoller.fetchData netTrafalgar
      (toggleBusLine turfDistance line15 (mounted turfDistance))).state.busMarkers
        = [{ latitude := some 51.5080, longitude := some (-0.1281) }] := by
  simp [ArrivalPoller.fetchData, ArrivalPoller.forLines, ArrivalPoller.forBus, toggleBusLine,
    runEffects, pollerDeps, distanceDeps, pollerEffect, pollerBody, distanceEffect, mounted, initial,
    line15, netTrafalgar, trafalgar, Settled.state, Number, withinLondon_trafalgar]

/-- C5, evaluated: with line 15 selected, the immediate cycle publishes the Trafalgar Square
marker; the next timer tick of the same effect, whose only result is Aldwych, publishes both
markers; and after line 15 is deselected the cycle of the new effect, which has no result at
all, leaves both markers published. -/
theorem fetchData_keeps_earlier_markers (turfDistance : LatLng → LatLng → JSNum) :
    (ArrivalPoller.fetchData netTrafalgar
      (toggleBusLine turfDistance line15 (mounted turfDistance))).state.busMarkers
        = [{ latitude := some 51.5080, longitude := some (-0.1281) }] ∧
    (ArrivalPoller.tick netAldwych
      (ArrivalPoller.fetchData netTrafalgar
        (toggleBusLine turfDistance line15 (mounted turfDistance))).state).state.busMarkers
        = [{ latitude := some 51.5080, longitude := some (-0.1281) },
           { latitude := some 51.5128, longitude := some (-0.1172) }] ∧
    (ArrivalPoller.fetchData netAldwych
      (toggleBusLine turfDistance line15
        (ArrivalPoller.tick netAldwych
          (ArrivalPoller.fetchData netTrafalgar
            (toggleBusLine turfDistance line15
              (mounted turfDistance))).state).state)).state.busMarkers
        = [{ latitude := some 51.5080, longitude := some (-0.1281) },
           { latitude := some 51.5128, longitude := some (-0.1172) }] := by
  have h1 := withinLondon_trafalgar
  have h2 := withinLondon_aldwych
  refine ⟨?_, ?_, ?_⟩ <;>
    simp [ArrivalPoller.fetchData, ArrivalPoller.tick, ArrivalPoller.forLines,
      ArrivalPoller.forBus, toggleBusLine, runEffects, pollerDeps, distanceDeps, pollerEffect, pollerBody,
      distanceEffect, mounted, initial, line15, netTrafalgar, netAldwych, trafalgar, aldwych,
      Settled.state, Number, h1, h2]

/-- The catalog loader catches every failure of its request. -/
theorem catalog_fetchData_fulfilled (reply : CatalogReply) (st : State) :
    (CatalogLoader.fetchData reply st).isRejected = false := by
  cases reply with
  | data busLinesArr => rfl
  | error response => cases response <;> rfl

/-- The poller settles without an exception when every arrivals request succeeds, whatever the
geocoding requests do. -/
theorem forLines_fulfilled (net : String → ArrivalsReply) (lines : List String) (st : State)
    (h : ∀ l ∈ lines, ∃ a, net l = .data a) :
    (ArrivalPoller.forLines net lines st).isRejected = false := by
  induction lines generalizing st with
  | nil => rfl
  | cons line rest ih =>
    obtain ⟨a, ha⟩ := h line (List.mem_cons_self _ _)
    rw [ArrivalPoller.forLines_cons_data net line rest a st ha]
    exact ih _ (fun l hl => h l (List.mem_cons_of_mem _ hl))

/-- C7, evaluated: with lines 1 and 2 selected, a failed arrivals request for line 1 rejects
the promise of `fetchData`; no error message is set and the arrival of line 2 is not
processed. -/
theorem fetchData_rejects (turfDistance : LatLng → LatLng → JSNum) :
    (ArrivalPoller.fetchData netLine1Down
      (toggleAll turfDistance [{ id := "1", name := "1" }, { id := "2", name := "2" }]
        (mounted turfDistance))).isRejected = true ∧
    (ArrivalPoller.fetchData netLine1Down
      (toggleAll turfDistance [{ id := "1", name := "1" }, { id := "2", name := "2" }]
        (mounted turfDistance))).state.errorMessage = none ∧
    (ArrivalPoller.fetchData netLine1Down
      (toggleAll turfDistance [{ id := "1", name := "1" }, { id := "2", name := "2" }]
        (mounted turfDistance))).state.busMarkers = [] ∧
    (ArrivalPoller.fetchData netLine1Down
      (toggleAll turfDistance [{ id := "2", name := "2" }]
        (mounted turfDistance))).state.busMarkers
        = [{ latitude := some 51.5080, longitude := some (-0.1281) }] := by
  have h1 := withinLondon_trafalgar
  refine ⟨?_, ?_, ?_, ?_⟩ <;>
    simp [ArrivalPoller.fetchData, ArrivalPoller.forLines, ArrivalPoller.forBus, toggleAll,
      toggleBusLine, runEffects, pollerDeps, distanceDeps, pollerEffect, pollerBody, distanceEffect,
      mounted, initial, netLine1Down, trafalgar, Settled.state, Settled.isRejected, Number, h1]

/-! ### Geocoding failures -/

namespace ArrivalPoller

theorem forBus_error (st : State) (response : Bool) :
    forBus st (.error response) =
      { st with errorMessage := some (if response then
          "Api Limit is 2 requests/second, It may not give data."
        else "An error occurred while fetching data.") } := by
  cases response <;> simp [forBus]

/-- A marker that is in the working array and published stays so through one arrival. -/
theorem forBus_mem (m : LatLng) (st : State) (reply : GeocodeReply)
    (h : m ∈ st.markers ∧ m ∈ st.busMarkers) :
    m ∈ (forBus st reply).markers ∧ m ∈ (forBus st reply).busMarkers := by
  cases reply with
  | data first =>
    unfold forBus
    simp only
    split_ifs
    · simp [h.1]
    · exact h
  | error response =>
    rw [forBus_error]; exact h

theorem foldl_forBus_mem (m : LatLng) (replies : List GeocodeReply) (st : State)
    (h : m ∈ st.markers ∧ m ∈ st.busMarkers) :
    m ∈ (replies.foldl forBus st).markers ∧ m ∈ (replies.foldl forBus st).busMarkers := by
  induction replies generalizing st with
  | nil => exact h
  | cons reply rest ih => exact ih (forBus st reply) (forBus_mem m st reply h)

theorem forLines_mem (net : String → ArrivalsReply) (m : LatLng) (lines : List String)
    (st : State) (h : m ∈ st.markers ∧ m ∈ st.busMarkers) :
    m ∈ (forLines net lines st).state.markers ∧ m ∈ (forLines net lines st).state.busMarkers := by
  induction lines generalizing st with
  | nil => exact h
  | cons line rest ih =>
    unfold forLines
    cases hn : net line with
    | data arrivals => exact ih _ (foldl_forBus_mem m arrivals st h)
    | error response => exact h

/-- An in-bounds result is pushed and published. -/
theorem forBus_push (st : State) (lat lon : ℚ) (hin : withinLondon (some lat) (some lon) = true) :
    ({ latitude := some lat, longitude := some lon } : LatLng) ∈
        (forBus st (.data (some { lat := some lat, lon := some lon }))).markers ∧
    ({ latitude := some lat, longitude := some lon } : LatLng) ∈
        (forBus st (.data (some { lat := some lat, lon := some lon }))).busMarkers := by
  simp [forBus, hin, Number]

theorem foldl_forBus_push (replies : List GeocodeReply) (st : State) (lat lon : ℚ)
    (hin : withinLondon (some lat) (some lon) = true)
    (hmem : GeocodeReply.data (some { lat := some lat, lon := some lon }) ∈ replies) :
    ({ latitude := some lat, longitude := some lon } : LatLng) ∈
        (replies.foldl forBus st).markers ∧
    ({ latitude := some lat, longitude := some lon } : LatLng) ∈
        (replies.foldl forBus st).busMarkers := by
  induction replies generalizing st with
  | nil => simp at hmem
  | cons reply rest ih =>
    rcases List.mem_cons.mp hmem with h | h
    · subst h
      exact foldl_forBus_mem _ rest _ (forBus_push st lat lon hin)
    · exact ih (forBus st reply) h

/-- Lines whose arrivals requests succeed are passed through. -/
theorem forLines_append (net : String → ArrivalsReply) (mid rest : List String) (st : State)
    (hmid : ∀ l ∈ mid, ∃ a, net l = .data a) :
    ∃ st', forLines net (mid ++ rest) st = forLines net rest st' := by
  induction mid generalizing st with
  | nil => exact ⟨st, rfl⟩
  | cons line more ih =>
    obtain ⟨a, ha⟩ := hmid line (List.mem_cons_self _ _)
    have hmore : ∀ l ∈ more, ∃ a, net l = .data a :=
      fun l hl => hmid l (List.mem_cons_of_mem _ hl)
    obtain ⟨st', hst'⟩ := ih (a.foldl forBus st) hmore
    refine ⟨st', ?_⟩
    rw [List.cons_append, forLines_cons_data net line _ a st ha]
    exact hst'

/-- When the geocoding request of one arrival fails, the error message becomes the
rate-limit text if the error carries a response and the generic text otherwise, nothing else
changes, and the cycle goes on with the later arrivals of the line and then the later lines:
the in-bounds results of the later arrivals of the line, and of every later line that the loop
reaches, are in the published marker list when the cycle ends. -/
theorem geocode_failure_goes_on (net : String → ArrivalsReply) (line : String)
    (rest : List String) (pre post : List GeocodeReply) (response : Bool) (st : State)
    (hnet : net line = .data (pre ++ .error response :: post)) :
    (forBus (pre.foldl forBus st) (.error response)).errorMessage =
      some (if response then "Api Limit is 2 requests/second, It may not give data."
        else "An error occurred while fetching data.") ∧
    (forBus (pre.foldl forBus st) (.error response)).markers = (pre.foldl forBus st).markers ∧
    (forBus (pre.foldl forBus st) (.error response)).busMarkers
      = (pre.foldl forBus st).busMarkers ∧
    forLines net (line :: rest) st =
      forLines net rest (post.foldl forBus (forBus (pre.foldl forBus st) (.error response))) ∧
    (∀ lat lon : ℚ, withinLondon (some lat) (some lon) = true →
      GeocodeReply.data (some { lat := some lat, lon := some lon }) ∈ post →
      ({ latitude := some lat, longitude := some lon } : LatLng) ∈
        (forLines net (line :: rest) st).state.busMarkers) ∧
    (∀ (mid after : List String) (later : String) (arrivals : List GeocodeReply),
      rest = mid ++ later :: after → (∀ l ∈ mid, ∃ a, net l = .data a) →
      net later = .data arrivals →
      ∀ lat lon : ℚ, withinLondon (some lat) (some lon) = true →
      GeocodeReply.data (some { lat := some lat, lon := some lon }) ∈ arrivals →
      ({ latitude := some lat, longitude := some lon } : LatLng) ∈
        (forLines net (line :: rest) st).state.busMarkers) := by
  have hrun : forLines net (line :: rest) st =
      forLines net rest
        (post.foldl forBus (forBus (pre.foldl forBus st) (.error response))) := by
    rw [forLines_cons_data net line rest _ st hnet]
    simp only [List.foldl_append, List.foldl_cons]
  refine ⟨?_, ?_, ?_, hrun, ?_, ?_⟩
  · rw [forBus_error]
  · rw [forBus_error]
  · rw [forBus_error]
  · intro lat lon hin hmem
    rw [hrun]
    exact (forLines_mem net _ rest _ (foldl_forBus_push post _ lat lon hin hmem)).2
  · intro mid after later arrivals hrest hmid hlater lat lon hin hmem
    rw [hrun, hrest]
    obtain ⟨st', hst'⟩ := forLines_append net mid (later :: after)
      (post.foldl forBus (forBus (pre.foldl forBus st) (.error response))) hmid
    rw [hst', forLines_cons_data net later after arrivals st' hlater]
    exact (forLines_mem net _ after _ (foldl_forBus_push arrivals st' lat lon hin hmem)).2

end ArrivalPoller

/-- C8, evaluated: with lines 1, 2 and 3 selected, the refused geocoding request of the arrival
of line 1 sets the rate-limit text; the arrivals request of line 2 then fails, the promise is
rejected, and the in-bounds arrival of line 3 is never added to the marker list.  When the
arrivals request of line 2 succeeds, the arrival of line 3 is added. -/
theorem fetchData_skips_later_line (turfDistance : LatLng → LatLng → JSNum) :
    (ArrivalPoller.fetchData netLine2Down
      (toggleAll turfDistance lines123 (mounted turfDistance))).state.errorMessage
        = some "Api Limit is 2 requests/second, It may not give data." ∧
    (ArrivalPoller.fetchData netLine2Down
      (toggleAll turfDistance lines123 (mounted turfDistance))).isRejected = true ∧
    (ArrivalPoller.fetchData netLine2Down
      (toggleAll turfDistance lines123 (mounted turfDistance))).state.busMarkers = [] ∧
    (ArrivalPoller.fetchData netLine2Idle
      (toggleAll turfDistance lines123 (mounted turfDistance))).state.busMarkers
        = [{ latitude := some 51.5080, longitude := some (-0.1281) }] := by
  have h1 := withinLondon_trafalgar
  refine ⟨?_, ?_, ?_, ?_⟩ <;>
    simp [ArrivalPoller.fetchData, ArrivalPoller.forLines, ArrivalPoller.forBus, toggleAll,
      toggleBusLine, runEffects, pollerDeps, distanceDeps, pollerEffect, pollerBody,
      distanceEffect, mounted, initial, netLine2Down, netLine2Idle, lines123, trafalgar,
      Settled.state, Settled.isRejected, Number, h1]

/-! ### The bounding box as an invariant -/

theorem withinLondon_true (latitude longitude : JSNum)
    (h : withinLondon latitude longitude = true) :
    InBox { latitude := Number latitude, longitude := Number longitude } := by
  cases latitude with
  | none => simp [withinLondon, jsGe] at h
  | some lat =>
    cases longitude with
    | none => simp [withinLondon, jsGe, jsLe] at h
    | some lon =>
      rw [withinLondon_num] at h
      refine ⟨lat, lon, rfl, ?_⟩
      simpa [minLatitude, maxLatitude, minLongitude, maxLongitude] using h

theorem forBus_boxInv (st : State) (reply : GeocodeReply) (h : BoxInv st) :
    BoxInv (ArrivalPoller.forBus st reply) := by
  cases reply with
  | error response => rw [ArrivalPoller.forBus_error]; exact h
  | data first =>
    unfold ArrivalPoller.forBus
    simp only
    split_ifs with hin
    · have hbox := withinLondon_true _ _ hin
      have hall : ∀ m ∈ st.markers ++
          [({ latitude := Number (first.bind fun place => place.lat),
              longitude := Number (first.bind fun place => place.lon) } : LatLng)],
          InBox m := by
        intro m hm
        rcases List.mem_append.mp hm with hm | hm
        · exact h.2.1 m hm
        · rw [List.mem_singleton.mp hm]; exact hbox
      exact ⟨hall, hall, h.2.2⟩
    · exact h

/-- A cycle of a superseded run keeps the invariant. -/
theorem forRetiredBus_boxInv (st : State) (run : Nat) (reply : GeocodeReply) (h : BoxInv st) :
    BoxInv (ArrivalPoller.forRetiredBus st run reply) := by
  unfold ArrivalPoller.forRetiredBus
  cases hget : st.retired[run]? with
  | none => exact h
  | some array =>
    have hmem : array ∈ st.retired := List.getElem?_mem hget
    have hfocus : BoxInv { st with markers := array } := ⟨h.1, h.2.2 array hmem, h.2.2⟩
    have hnext := forBus_boxInv { st with markers := array } reply hfocus
    refine ⟨hnext.1, h.2.1, ?_⟩
    intro other hother m hm
    rcases List.mem_or_eq_of_mem_set hother with hold | hnew
    · exact h.2.2 other hold m hm
    · rw [hnew] at hm; exact hnext.2.1 m hm

theorem foldl_forBus_boxInv (replies : List GeocodeReply) (st : State) (h : BoxInv st) :
    BoxInv (replies.foldl ArrivalPoller.forBus st) := by
  induction replies generalizing st with
  | nil => exact h
  | cons reply rest ih => exact ih _ (forBus_boxInv st reply h)

theorem forLines_boxInv (net : String → ArrivalsReply) (lines : List String) (st : State)
    (h : BoxInv st) : BoxInv (ArrivalPoller.forLines net lines st).state := by
  induction lines generalizing st with
  | nil => exact h
  | cons line rest ih =>
    cases hn : net line with
    | data arrivals =>
      rw [ArrivalPoller.forLines_cons_data net line rest arrivals st hn]
      exact ih _ (foldl_forBus_boxInv arrivals st h)
    | error response =>
      rw [ArrivalPoller.forLines_cons_error net line rest response st hn]
      exact h

theorem pollerEffect_boxInv (st : State) (h : BoxInv st) : BoxInv (pollerEffect st) := by
  refine ⟨h.1, ?_, ?_⟩
  · intro m hm; simp [pollerEffect, pollerBody] at hm
  · intro array harray m hm
    have harray' : array ∈ st.retired ++ [st.markers] := harray
    rcases List.mem_append.mp harray' with hold | hnew
    · exact h.2.2 array hold m hm
    · rw [List.mem_singleton.mp hnew] at hm; exact h.2.1 m hm

theorem distanceEffect_boxInv (turfDistance : LatLng → LatLng → JSNum) (st : State)
    (h : BoxInv st) : BoxInv (distanceEffect turfDistance st) := by
  unfold distanceEffect
  split_ifs <;> exact h

theorem runEffects_boxInv (turfDistance : LatLng → LatLng → JSNum) (changed : Cell)
    (st : State) (h : BoxInv st) : BoxInv (runEffects turfDistance changed st) := by
  unfold runEffects
  simp only
  split_ifs
  · exact distanceEffect_boxInv turfDistance _ (pollerEffect_boxInv st h)
  · exact distanceEffect_boxInv turfDistance _ h
  · exact pollerEffect_boxInv st h
  · exact h

theorem step_boxInv (turfDistance : LatLng → LatLng → JSNum) (st st' : State)
    (hstep : Step turfDistance st st') (h : BoxInv st) : BoxInv st' := by
  cases hstep with
  | catalog reply =>
    cases reply with
    | data busLinesArr => exact h
    | error response => cases response <;> exact h
  | bus reply => exact forBus_boxInv st reply h
  | retiredBus run reply => exact forRetiredBus_boxInv st run reply h
  | cycle net => exact forLines_boxInv net _ st h
  | tick net => exact forLines_boxInv net _ _ h
  | distances => exact distanceEffect_boxInv turfDistance st h
  | toggle line =>
    unfold toggleBusLine
    split_ifs
    · exact runEffects_boxInv turfDistance _ _ h
    · exact runEffects_boxInv turfDistance _ _ h
  | press latitude longitude => exact runEffects_boxInv turfDistance _ _ h
  | button => exact h

theorem reachable_boxInv (turfDistance : LatLng → LatLng → JSNum) (st : State)
    (h : Reachable turfDistance st) : BoxInv st := by
  induction h with
  | mount => simp [BoxInv, mounted, distanceEffect, pollerBody, initial]
  | step _ hstep ih => exact step_boxInv turfDistance _ _ hstep ih

theorem set_eq_self_of_getElem {α : Type} (l : List α) (i : Nat) (a : α)
    (h : l[i]? = some a) : l.set i a = l := by
  induction l generalizing i with
  | nil => rfl
  | cons x xs ih =>
    cases i with
    | zero => simp at h; simp [h]
    | succ j => simp at h; simp [ih j h]

/-- A result that fails the guard leaves the state as it is, also in a cycle of a superseded
run. -/
theorem forRetiredBus_outside (st : State) (run : Nat) (first : Option Place)
    (hout : withinLondon (first.bind fun place => place.lat)
      (first.bind fun place => place.lon) = false) :
    ArrivalPoller.forRetiredBus st run (.data first) = st := by
  unfold ArrivalPoller.forRetiredBus
  cases hget : st.retired[run]? with
  | none => rfl
  | some array =>
    simp [ArrivalPoller.forBus, hout, set_eq_self_of_getElem st.retired run array hget]

/-- C6: in every reachable state, the states in the middle of a cycle and those produced by
the cycles of superseded runs of the effect included, every published marker has both
coordinates numbers, with latitude in [51.2867602, 51.6918741] and longitude in
[-0.510375, 0.3340155]; a result that fails the test, such as one with latitude 52.0, and a
result with an absent (undefined) coordinate or no first candidate at all leave the state as
it is, in a cycle of the live run and in a cycle of a superseded run. -/
theorem busMarkers_inBox (turfDistance : LatLng → LatLng → JSNum) (st : State)
    (h : Reachable turfDistance st) :
    (∀ m ∈ st.busMarkers, ∃ lat lon : ℚ,
      m = { latitude := some lat, longitude := some lon } ∧
      ((51.2867602 : ℚ) ≤ lat ∧ lat ≤ 51.6918741) ∧
      ((-0.510375 : ℚ) ≤ lon ∧ lon ≤ 0.3340155)) ∧
    (∀ latitude longitude : JSNum, withinLondon latitude longitude = false →
      ArrivalPoller.forBus st (.data (some { lat := latitude, lon := longitude })) = st) ∧
    (∀ lon : JSNum,
      ArrivalPoller.forBus st (.data (some { lat := some 52.0, lon := lon })) = st) ∧
    (∀ c : JSNum,
      ArrivalPoller.forBus st (.data (some { lat := none, lon := c })) = st ∧
      ArrivalPoller.forBus st (.data (some { lat := c, lon := none })) = st) ∧
    ArrivalPoller.forBus st (.data none) = st ∧
    (∀ (run : Nat) (latitude longitude : JSNum), withinLondon latitude longitude = false →
      ArrivalPoller.forRetiredBus st run
        (.data (some { lat := latitude, lon := longitude })) = st) ∧
    (∀ run : Nat, ArrivalPoller.forRetiredBus st run (.data none) = st) := by
  have hout : ∀ latitude longitude : JSNum, withinLondon latitude longitude = false →
      ArrivalPoller.forBus st (.data (some { lat := latitude, lon := longitude })) = st := by
    intro latitude longitude hf
    simp [ArrivalPoller.forBus, hf]
  refine ⟨(reachable_boxInv turfDistance st h).1, hout, ?_, ?_, ?_, ?_, ?_⟩
  · intro lon
    apply hout
    cases lon with
    | none => simp [withinLondon, jsGe, jsLe]
    | some y =>
      have hnot : ¬ withinLondon (some 52.0) (some y) = true := by
        rw [withinLondon_num]
        norm_num [minLatitude, maxLatitude, minLongitude, maxLongitude]
      simpa using hnot
  · intro c
    constructor
    · apply hout; simp [withinLondon, jsGe]
    · apply hout; cases c <;> simp [withinLondon, jsGe, jsLe]
  · simp [ArrivalPoller.forBus, withinLondon, jsGe]
  · intro run latitude longitude hf
    exact forRetiredBus_outside st run _ (by simpa using hf)
  · intro run
    exact forRetiredBus_outside st run none (by simp [withinLondon, jsGe])

/-- The reply that arrives after the map press is pushed onto the array of the superseded run,
which still holds the Trafalgar Square marker, and that array is published. -/
theorem afterStaleReply_busMarkers :
    afterStaleReply.busMarkers =
      [{ latitude := some 51.5080, longitude := some (-0.1281) },
       { latitude := some 51.5128, longitude := some (-0.1172) }] := by
  simp [afterStaleReply, ArrivalPoller.forRetiredBus, ArrivalPoller.forBus, handleMapPress,
    toggleBusLine, runEffects, pollerDeps, distanceDeps, pollerEffect, pollerBody,
    distanceEffect, turfPointThrows, mounted, initial, line15, trafalgar, aldwych, Number,
    withinLondon_trafalgar, withinLondon_aldwych]

theorem busMarkers_inBox_witness :
    Reachable zeroDistance afterStaleReply ∧
    InBox { latitude := some 51.5128, longitude := some (-0.1172) } :=
  have hr : Reachable zeroDistance afterStaleReply :=
    .step (.step (.step (.step .mount (.toggle line15 _)) (.bus trafalgar _))
      (.press 51.6 (-0.05) _)) (.retiredBus 1 aldwych _)
  ⟨hr, (busMarkers_inBox zeroDistance _ hr).1 _
    (by rw [afterStaleReply_busMarkers]; simp)⟩

/-! ### Map taps -/

/-- The distance effect writes `distances` and `threw` only. -/
theorem distanceEffect_frame (turfDistance : LatLng → LatLng → JSNum) (st : State) :
    (distanceEffect turfDistance st).busMarkers = st.busMarkers ∧
    (distanceEffect turfDistance st).fixedPoint = st.fixedPoint ∧
    (distanceEffect turfDistance st).errorMessage = st.errorMessage ∧
    (distanceEffect turfDistance st).selectedBusLines = st.selectedBusLines ∧
    (distanceEffect turfDistance st).busLines = st.busLines ∧
    (distanceEffect turfDistance st).markers = st.markers ∧
    (distanceEffect turfDistance st).pollLines = st.pollLines ∧
    (distanceEffect turfDistance st).retired = st.retired ∧
    (distanceEffect turfDistance st).fetchCalls = st.fetchCalls := by
  unfold distanceEffect
  split_ifs <;> exact ⟨rfl, rfl, rfl, rfl, rfl, rfl, rfl, rfl, rfl⟩

/-- With markers in the box and a numeric fixed point `turf.point` does not throw. -/
theorem distanceEffect_numeric (turfDistance : LatLng → LatLng → JSNum) (st : State)
    (hmarkers : ∀ m ∈ st.busMarkers, InBox m) (hfixed : turfPointThrows st.fixedPoint = false) :
    distanceEffect turfDistance st =
      { st with distances := st.busMarkers.map fun marker => turfDistance marker st.fixedPoint }
      := by
  have hany : (st.busMarkers.any fun marker =>
      turfPointThrows marker || turfPointThrows st.fixedPoint) = false := by
    rw [List.any_eq_false]
    intro m hm
    obtain ⟨lat, lon, hm', -⟩ := hmarkers m hm
    have hmk : turfPointThrows m = false := by simp [hm', turfPointThrows]
    simp [hmk, hfixed]
  unfold distanceEffect
  simp [hany]

theorem handleMapPress_eq (turfDistance : LatLng → LatLng → JSNum) (coordinate : LatLng)
    (st : State) :
    handleMapPress turfDistance coordinate st =
      distanceEffect turfDistance (pollerEffect { st with fixedPoint := coordinate }) := by
  simp [handleMapPress, runEffects, pollerDeps, distanceDeps]

/-- The poller writes neither the fixed point nor `threw`. -/
theorem forBus_fixedPoint (st : State) (reply : GeocodeReply) :
    (ArrivalPoller.forBus st reply).fixedPoint = st.fixedPoint ∧
    (ArrivalPoller.forBus st reply).threw = st.threw := by
  cases reply with
  | error response => cases response <;> exact ⟨rfl, rfl⟩
  | data first =>
    unfold ArrivalPoller.forBus
    simp only
    split_ifs <;> exact ⟨rfl, rfl⟩

theorem foldl_forBus_fixedPoint (replies : List GeocodeReply) (st : State) :
    (replies.foldl ArrivalPoller.forBus st).fixedPoint = st.fixedPoint ∧
    (replies.foldl ArrivalPoller.forBus st).threw = st.threw := by
  induction replies generalizing st with
  | nil => exact ⟨rfl, rfl⟩
  | cons reply rest ih =>
    obtain ⟨h1, h2⟩ := ih (ArrivalPoller.forBus st reply)
    obtain ⟨h3, h4⟩ := forBus_fixedPoint st reply
    exact ⟨h1.trans h3, h2.trans h4⟩

theorem forLines_fixedPoint (net : String → ArrivalsReply) (lines : List String) (st : State) :
    (ArrivalPoller.forLines net lines st).state.fixedPoint = st.fixedPoint ∧
    (ArrivalPoller.forLines net lines st).state.threw = st.threw := by
  induction lines generalizing st with
  | nil => exact ⟨rfl, rfl⟩
  | cons line rest ih =>
    cases hn : net line with
    | data arrivals =>
      rw [ArrivalPoller.forLines_cons_data net line rest arrivals st hn]
      obtain ⟨h1, h2⟩ := ih (arrivals.foldl ArrivalPoller.forBus st)
      obtain ⟨h3, h4⟩ := foldl_forBus_fixedPoint arrivals st
      exact ⟨h1.trans h3, h2.trans h4⟩
    | error response =>
      rw [ArrivalPoller.forLines_cons_error net line rest response st hn]
      exact ⟨rfl, rfl⟩

theorem forRetiredBus_fixedPoint (st : State) (run : Nat) (reply : GeocodeReply) :
    (ArrivalPoller.forRetiredBus st run reply).fixedPoint = st.fixedPoint ∧
    (ArrivalPoller.forRetiredBus st run reply).threw = st.threw := by
  unfold ArrivalPoller.forRetiredBus
  cases hget : st.retired[run]? with
  | none => exact ⟨rfl, rfl⟩
  | some array => exact forBus_fixedPoint { st with markers := array } reply

/-- In every reachable state the fixed point is a pair of numbers and no effect has thrown. -/
theorem reachable_numeric (turfDistance : LatLng → LatLng → JSNum) (st : State)
    (h : Reachable turfDistance st) :
    turfPointThrows st.fixedPoint = false ∧ st.threw = false := by
  induction h with
  | mount => simp [mounted, distanceEffect, pollerBody, initial, turfPointThrows]
  | @step st st' hreach hstep ih =>
    have hbox := reachable_boxInv turfDistance st hreach
    cases hstep with
    | catalog reply =>
      cases reply with
      | data busLinesArr => exact ih
      | error response => cases response <;> exact ih
    | bus reply =>
      obtain ⟨h1, h2⟩ := forBus_fixedPoint st reply
      rw [h1, h2]; exact ih
    | retiredBus run reply =>
      obtain ⟨h1, h2⟩ := forRetiredBus_fixedPoint st run reply
      rw [h1, h2]; exact ih
    | cycle net =>
      obtain ⟨h1, h2⟩ := forLines_fixedPoint net st.pollLines st
      exact ⟨h1 ▸ ih.1, h2 ▸ ih.2⟩
    | tick net =>
      obtain ⟨h1, h2⟩ := forLines_fixedPoint net st.pollLines
        { st with fetchCalls := st.fetchCalls + 1 }
      exact ⟨h1 ▸ ih.1, h2 ▸ ih.2⟩
    | distances =>
      rw [distanceEffect_numeric turfDistance st hbox.1 ih.1]; exact ih
    | toggle line =>
      unfold toggleBusLine
      split_ifs <;>
        simpa [runEffects, pollerDeps, distanceDeps, pollerEffect, pollerBody] using ih
    | press latitude longitude =>
      rw [handleMapPress_eq, distanceEffect_numeric]
      · simpa [pollerEffect, pollerBody, turfPointThrows] using ih.2
      · exact hbox.1
      · simp [pollerEffect, pollerBody, turfPointThrows]
    | button => exact ih

/-- C10, as amended: in every reachable state a tap, whatever its values, replaces the fixed
point with the tapped coordinate, leaves the marker list, the selection, the catalog and the
error message as they are, and re-runs the polling effect: `fetchData` is called once more,
over the current selection, with an empty working array, while the array of the previous run
is kept by the cycles of that run; when both tapped values are numbers, the distances of the
existing markers are recomputed against the new point and no effect throws. -/
theorem handleMapPress_effect (turfDistance : LatLng → LatLng → JSNum) (st : State)
    (h : Reachable turfDistance st) :
    (∀ coordinate : LatLng,
      (handleMapPress turfDistance coordinate st).fixedPoint = coordinate ∧
      (handleMapPress turfDistance coordinate st).busMarkers = st.busMarkers ∧
      (handleMapPress turfDistance coordinate st).selectedBusLines = st.selectedBusLines ∧
      (handleMapPress turfDistance coordinate st).busLines = st.busLines ∧
      (handleMapPress turfDistance coordinate st).errorMessage = st.errorMessage ∧
      (handleMapPress turfDistance coordinate st).fetchCalls = st.fetchCalls + 1 ∧
      (handleMapPress turfDistance coordinate st).pollLines = st.selectedBusLines ∧
      (handleMapPress turfDistance coordinate st).markers = [] ∧
      (handleMapPress turfDistance coordinate st).retired = st.retired ++ [st.markers]) ∧
    (∀ lat lon : ℚ,
      (handleMapPress turfDistance { latitude := some lat, longitude := some lon } st).distances
        = st.busMarkers.map
            (fun marker => turfDistance marker { latitude := some lat, longitude := some lon }) ∧
      (handleMapPress turfDistance { latitude := some lat, longitude := some lon } st).threw
        = st.threw) := by
  constructor
  · intro coordinate
    rw [handleMapPress_eq]
    obtain ⟨h1, h2, h3, h4, h5, h6, h7, h8, h9⟩ :=
      distanceEffect_frame turfDistance (pollerEffect { st with fixedPoint := coordinate })
    rw [h1, h2, h3, h4, h5, h6, h7, h8, h9]
    simp [pollerEffect, pollerBody]
  · intro lat lon
    rw [handleMapPress_eq, distanceEffect_numeric]
    · simp [pollerEffect, pollerBody]
    · exact (reachable_boxInv turfDistance st h).1
    · simp [pollerEffect, pollerBody, turfPointThrows]

theorem withTrafalgar_reachable : Reachable zeroDistance withTrafalgar :=
  .step (.step .mount (.toggle line15 _)) (.cycle netTrafalgar _)

theorem handleMapPress_effect_witness :
    Reachable zeroDistance withTrafalgar ∧
    (handleMapPress zeroDistance { latitude := some 51.6, longitude := some (-0.05) }
      withTrafalgar).fixedPoint = { latitude := some 51.6, longitude := some (-0.05) } ∧
    (handleMapPress zeroDistance { latitude := some 51.6, longitude := some (-0.05) }
      withTrafalgar).distances
      = withTrafalgar.busMarkers.map
          (fun marker => zeroDistance marker { latitude := some 51.6, longitude := some (-0.05) })
      ∧
    (handleMapPress zeroDistance { latitude := some 51.6, longitude := some (-0.05) }
      withTrafalgar).fetchCalls = withTrafalgar.fetchCalls + 1 :=
  have h := handleMapPress_effect zeroDistance withTrafalgar withTrafalgar_reachable
  ⟨withTrafalgar_reachable,
    (h.1 { latitude := some 51.6, longitude := some (-0.05) }).1,
    (h.2 51.6 (-0.05)).1,
    (h.1 { latitude := some 51.6, longitude := some (-0.05) }).2.2.2.2.2.1⟩

/-- C10, refuted as stated: with line 15 selected and the Trafalgar Square marker on the map,
a tap at (51.6, -0.05) makes the poller call `fetchData` again over line 15, and that cycle,
here with one arrival at Aldwych, replaces the published marker list; and a tap whose
coordinate holds no numbers makes `turf.point` throw, so that the distances stay as they
were. -/
theorem handleMapPress_starts_cycle :
    withTrafalgar.busMarkers = [{ latitude := some 51.5080, longitude := some (-0.1281) }] ∧
    (handleMapPress zeroDistance { latitude := some 51.6, longitude := some (-0.05) }
      withTrafalgar).fetchCalls = withTrafalgar.fetchCalls + 1 ∧
    (handleMapPress zeroDistance { latitude := some 51.6, longitude := some (-0.05) }
      withTrafalgar).pollLines = ["15"] ∧
    (ArrivalPoller.fetchData netAldwych
      (handleMapPress zeroDistance { latitude := some 51.6, longitude := some (-0.05) }
        withTrafalgar)).state.busMarkers
      = [{ latitude := some 51.5128, longitude := some (-0.1172) }] ∧
    (handleMapPress zeroDistance { latitude := none, longitude := none }
      withTrafalgar).threw = true ∧
    (handleMapPress zeroDistance { latitude := none, longitude := none }
      withTrafalgar).distances = withTrafalgar.distances := by
  have h1 := withinLondon_trafalgar
  have h2 := withinLondon_aldwych
  refine ⟨?_, ?_, ?_, ?_, ?_, ?_⟩ <;>
    simp [withTrafalgar, ArrivalPoller.fetchData, ArrivalPoller.forLines, ArrivalPoller.forBus,
      handleMapPress, toggleBusLine, runEffects, pollerDeps, distanceDeps, pollerEffect,
      pollerBody, distanceEffect, turfPointThrows, mounted, initial, line15, netTrafalgar,
      netAldwych, trafalgar, aldwych, Settled.state, Number, h1, h2]

end LondonMap
